import Mathlib

/-!
Verification of the PDF2Audio-pro asynchronous podcast pipeline against its
specification.  The definitions below are a shallow embedding of the Python
source files:

  * src/utils/audio_utils.py   (generate_audio, generate_only_dialogue,
                                the tenacity-retried generate_dialogue call,
                                the ThreadPoolExecutor fan-out/fan-in stage)
  * src/tasks/generate_tasks.py (validate_and_generate_audio_task)
  * src/utils/s3_utils.py      (upload_to_s3, generate_presigned_url)
  * src/utils/supabase_utils.py (insert_supabase_record)
  * src/app/main.py            (get_task_status)

External collaborators (the OpenAI calls, boto3, supabase, the Celery result
backend) are modelled as injected outcome values; everything the repository
itself computes is translated directly from the source.
-/

namespace PdfToAudio

/-! ## Data model (audio_utils.py: DialogueItem, Dialogue) -/

/-- Audio payloads are raw byte strings (MP3 bytes from the synthesis
collaborator); modelled as lists of naturals. -/
abbrev Bytes := List Nat

/-- The speaker tag: `Literal["speaker-1", "speaker-2"]` of `DialogueItem`. -/
inductive Speaker where
  | one
  | two
deriving DecidableEq, Repr

/-- The string value of a speaker tag as it appears in the Python literal. -/
def Speaker.str : Speaker → String
  | .one => "speaker-1"
  | .two => "speaker-2"

/-- Model of `DialogueItem(text, speaker)` from audio_utils.py. -/
structure DialogueItem where
  text : String
  speaker : Speaker
deriving DecidableEq, Repr

/-- Model of `Dialogue(scratchpad, dialogue)` from audio_utils.py. -/
structure Dialogue where
  scratchpad : String
  dialogue : List DialogueItem
deriving DecidableEq, Repr

/-! ## Speech-synthesis fan-out / fan-in (audio_utils.py lines 152-165)

The source submits one `get_mp3` call per dialogue line to a
`ThreadPoolExecutor`, keeping `(future, transcript_line)` pairs in submission
order, and then iterates the list calling `future.result()`.  We model the
synthesis collaborator as `synth : text → voice → Except String Bytes`
(`.error` = the call raised), the executor as a slot table filled in an
arbitrary completion order, and the fan-in as a read of the slots in
submission-index order. -/

/-- Source line: `voice = speaker_1_voice if line.speaker == "speaker-1" else speaker_2_voice`. -/
def voiceFor (v1 v2 : String) (l : DialogueItem) : String :=
  if l.speaker = .one then v1 else v2

/-- The work submitted for one line: `get_mp3(line.text, voice, ...)`. -/
def synthTask (synth : String → String → Except String Bytes)
    (v1 v2 : String) (l : DialogueItem) : Except String Bytes :=
  synth l.text (voiceFor v1 v2 l)

/-- The slot table of the executor after the tasks complete in the order given by
the schedule `sched`: completing task `i` stores the outcome of the synthesis call of line `i` in slot `i`, regardless of when it completes. -/
def scheduleSlots (lines : List DialogueItem)
    (synth : String → String → Except String Bytes) (v1 v2 : String)
    (sched : List Nat) : Nat → Option (Except String Bytes) :=
  sched.foldl
    (fun slots i => fun j =>
      if j = i then lines[i]?.map (synthTask synth v1 v2) else slots j)
    (fun _ => none)

/-- Fan-in readout: `future.result()` for each submitted index in submission
order; `none` if some slot was never completed. -/
def collectSlots : List Nat → (Nat → Option (Except String Bytes)) →
    Option (List (Except String Bytes))
  | [], _ => some []
  | i :: is, slots =>
    match slots i, collectSlots is slots with
    | some r, some rs => some (r :: rs)
    | _, _ => none

/-- The fan-in loop surfaces the first raising `future.result()` in
submission order; otherwise it yields all chunks in submission order. -/
def sequenceExcept : List (Except String Bytes) → Except String (List Bytes)
  | [] => .ok []
  | .error e :: _ => .error e
  | .ok b :: rest => (sequenceExcept rest).map (fun bs => b :: bs)

/-- The whole synthesis stage under a given completion schedule: `none` means
some submitted task never completed (cannot happen for a complete schedule),
`some (.error e)` means the fan-in raised, `some (.ok chunks)` is the ordered
chunk list. -/
def synthStageScheduled (lines : List DialogueItem)
    (synth : String → String → Except String Bytes) (v1 v2 : String)
    (sched : List Nat) : Option (Except String (List Bytes)) :=
  (collectSlots (List.range lines.length)
      (scheduleSlots lines synth v1 v2 sched)).map sequenceExcept

/-- Source line `audio += audio_chunk` over the ordered chunks: concatenation. -/
def joinBytes (chunks : List Bytes) : Bytes := chunks.flatten

/-! ## Transcript construction (audio_utils.py lines 156, 165) -/

/-- Source line: `transcript_line = f"{line.speaker}: {line.text}"`. -/
def transcriptLine (l : DialogueItem) : String :=
  l.speaker.str ++ ": " ++ l.text

/-- Source line `transcript += transcript_line + "\n\n"` over the fan-in loop: every
entry, the last included, is followed by a blank-line terminator. -/
def buildTranscript (lines : List DialogueItem) : String :=
  lines.foldl (fun acc l => acc ++ (transcriptLine l ++ "\n\n")) ""

deriving instance DecidableEq for Except

/-- A default dialogue line, used only as the out-of-range default of
`List.getD` in index bookkeeping. -/
def dummyLine : DialogueItem := ⟨"", .one⟩

/-- A small concrete dialogue used by witnesses. -/
def demoLines : List DialogueItem :=
  [⟨"hello", .one⟩, ⟨"world there", .two⟩]

/-- A concrete successful synthesis collaborator used by witnesses. -/
def demoSynth : String → String → Except String Bytes :=
  fun t v => .ok [t.length, v.length]

/-- The chunk each demo line synthesizes to. -/
def demoChunk : DialogueItem → Bytes :=
  fun l => [l.text.length, (voiceFor "alloy" "echo" l).length]

/-! ### Transcript format (claim C7) -/

/-- Helper: `buildTranscript` rewritten as a right fold: each entry followed by its
blank-line terminator. -/
def joinEntries : List DialogueItem → String
  | [] => ""
  | l :: ls => (transcriptLine l ++ "\n\n") ++ joinEntries ls

/-- Modelled from the spec words, for comparison with the source definition:
the transcript format the spec describes, `"{speaker}: {text}"` entries with a
blank line between CONSECUTIVE entries and no other separators. -/
def specTranscript : List DialogueItem → String
  | [] => ""
  | [l] => transcriptLine l
  | l :: l2 :: ls => transcriptLine l ++ "\n\n" ++ specTranscript (l2 :: ls)

/-! ### Transcript parsing and round trip (claim C8)

The claim speaks of parsing the transcript "under the fixed join format"
back into the speaker/text sequence.  The parser below is the canonical
inverse of the join format of the source: strip one of the two speaker tags,
read text up to the first blank-line separator, repeat. -/

/-- The leading characters of a rendered entry: the speaker tag plus the
`": "` of the `"{speaker}: {text}"` format. -/
def tagChars : Speaker → List Char
  | .one => ['s', 'p', 'e', 'a', 'k', 'e', 'r', '-', '1', ':', ' ']
  | .two => ['s', 'p', 'e', 'a', 'k', 'e', 'r', '-', '2', ':', ' ']

/-- Strip an expected literal character sequence from the front of a string. -/
def stripPrefixChars : List Char → List Char → Option (List Char)
  | [], s => some s
  | _ :: _, [] => none
  | p :: ps, c :: cs => if c = p then stripPrefixChars ps cs else none

/-- Recognize one of the two speaker tags at the front of an entry. -/
def parseSpeakerTag (s : List Char) : Option (Speaker × List Char) :=
  match stripPrefixChars (tagChars .one) s with
  | some r => some (Speaker.one, r)
  | none =>
    match stripPrefixChars (tagChars .two) s with
    | some r => some (Speaker.two, r)
    | none => none

/-- Read characters up to (and consuming) the first blank-line separator. -/
def takeUntilBlank : List Char → Option (List Char × List Char)
  | [] => none
  | [_] => none
  | c1 :: c2 :: rest =>
    if c1 = '\n' ∧ c2 = '\n' then some ([], rest)
    else
      match takeUntilBlank (c2 :: rest) with
      | none => none
      | some (a, b) => some (c1 :: a, b)

/-- Parse a sequence of rendered entries, with fuel bounding the number of
entries (the top-level parser passes the string length, which always
suffices since every entry consumes characters). -/
def parseEntriesFuel : Nat → List Char → Option (List (Speaker × List Char))
  | fuel, s =>
    if s = [] then some []
    else
      match fuel with
      | 0 => none
      | fuel2 + 1 =>
        match parseSpeakerTag s with
        | none => none
        | some (sp, r) =>
          match takeUntilBlank r with
          | none => none
          | some (txt, rest) =>
            (parseEntriesFuel fuel2 rest).map (fun ps => (sp, txt) :: ps)

/-- The transcript parser of the fixed join format. -/
def parseTranscript (s : String) : Option (List (Speaker × String)) :=
  (parseEntriesFuel s.data.length s.data).map
    (List.map (fun p => (p.1, String.mk p.2)))

/-- No two adjacent newline characters occur in the list. -/
def noDoubleNL : List Char → Bool
  | c1 :: c2 :: rest =>
    if c1 = '\n' ∧ c2 = '\n' then false else noDoubleNL (c2 :: rest)
  | _ => true

/-- The characters one dialogue line contributes to the transcript. -/
def entryChars (l : DialogueItem) : List Char :=
  tagChars l.speaker ++ l.text.data ++ ['\n', '\n']

/-- Character-level form of the whole transcript. -/
def renderChars : List DialogueItem → List Char
  | [] => []
  | l :: ls => entryChars l ++ renderChars ls

/-! ## The generate_audio / generate_only_dialogue pipeline
(audio_utils.py lines 29-187 and 190-309)

The front of both functions: the API-key guard, PDF text extraction, the
processing of `edited_transcript` / `user_feedback`, the LLM call, and (for
`generate_audio`) the synthesis fan-out/fan-in.  The remote collaborators
(PDF reader, LLM, TTS) are injected through `GenEnv`; every call to one of
them is recorded in an effect trace. -/

/-- The Python exception kinds the pipeline can raise. -/
inductive PyError where
  | valueError (msg : String)
  | typeError (msg : String)
  | runtimeError (msg : String)
deriving DecidableEq, Repr

/-- Python truthiness of an optional string: `None` and `""` are falsy, as
tested by `not os.getenv("OPENAI_API_KEY")` / `not openai_api_key`. -/
def pyTruthy : Option String → Bool
  | none => false
  | some s => s != ""

/-- External calls made by the pipeline, in order. -/
inductive GenEffect where
  | docRead (f : String)
  | llmCall
  | ttsCall
deriving DecidableEq, Repr

/-- The injected collaborators of the pipeline: the environment API key, the
per-file PDF text extraction outcome, the (retried) dialogue-generation
outcome as a function of the prompt inputs, and the per-line TTS outcome. -/
structure GenEnv where
  envKey : Option String
  readPdf : String → Except String String
  llm : String → String → String → Except String Dialogue
  synth : String → String → Except String Bytes

/-- The extraction loop (lines 70-79): per file, append the extracted text
plus a paragraph break, raising `ValueError` on the first unreadable file. -/
def extractCombined (readPdf : String → Except String String) :
    List String → String → Except String String × List GenEffect
  | [], acc => (.ok acc, [])
  | f :: fs, acc =>
    match readPdf f with
    | .error e => (.error ("Error extracting text from PDF: " ++ e), [.docRead f])
    | .ok t =>
      let r := extractCombined readPdf fs (acc ++ t ++ "\n\n")
      (r.1, .docRead f :: r.2)

def editedLead : String :=
  "\nPreviously generated edited transcript, with specific edits and comments that I want you to carefully address:\n"
    ++ "<edited_transcript>\n"

def editedTail : String := "</edited_transcript>"

def feedbackLead : String := "\nOverall user feedback:\n\n"

def instructionImprove : String :=
  "Based on the original text, please generate an improved version of the dialogue by incorporating the edits, comments and feedback."

/-- Line 125: `"…" + edited_transcript + "…" if edited_transcript != "" else ""`.
In Python, `None != ""` is true, so an absent transcript reaches the string
concatenation, which raises `TypeError`. -/
def processEdited (et : Option String) : Except PyError String :=
  if et = some "" then .ok ""
  else
    match et with
    | some s => .ok (editedLead ++ s ++ editedTail)
    | none => .error (.typeError "can only concatenate str (not NoneType) to str")

/-- Line 126: the same pattern for `user_feedback`. -/
def processFeedback (uf : Option String) : Except PyError String :=
  if uf = some "" then .ok ""
  else
    match uf with
    | some s => .ok (feedbackLead ++ s)
    | none => .error (.typeError "can only concatenate str (not NoneType) to str")

/-- Lines 128-129: when either processed fragment is non-blank (Python
`str.strip` modelled by `String.trim`), wrap the feedback in the
requested-improvements section. -/
def requestedImprovements (etp ufp : String) : String × String :=
  if etp.trim ≠ "" ∨ ufp.trim ≠ "" then
    (etp,
      "<requested_improvements>" ++ ufp ++ "\n\n" ++ instructionImprove
        ++ "</requested_improvements>")
  else (etp, ufp)

/-- The success payload of `generate_audio`: the concatenated audio bytes
(the content written to the scratch mp3 file), the transcript, and the
combined source text. -/
structure GenResult where
  audioPayload : Bytes
  transcript : String
  combinedText : String
deriving DecidableEq, Repr

/-- The `generate_audio` pipeline. -/
def generate_audio (E : GenEnv) (files : List String) (openai_api_key : Option String)
    (v1 v2 : String) (edited_transcript user_feedback original_text : Option String) :
    Except PyError GenResult × List GenEffect :=
  if pyTruthy E.envKey = false ∧ pyTruthy openai_api_key = false then
    (.error (.valueError "OpenAI API key is required"), [])
  else
    match (if (original_text.getD "") = ""
        then extractCombined E.readPdf files ""
        else (.ok (original_text.getD ""), [])) with
    | (.error e, tr) => (.error (.valueError e), tr)
    | (.ok combined, tr) =>
      match processEdited edited_transcript with
      | .error pe => (.error pe, tr)
      | .ok etp =>
        match processFeedback user_feedback with
        | .error pe => (.error pe, tr)
        | .ok ufp =>
          match E.llm combined (requestedImprovements etp ufp).1
              (requestedImprovements etp ufp).2 with
          | .error e => (.error (.runtimeError e), tr ++ [.llmCall])
          | .ok dlg =>
            match sequenceExcept (dlg.dialogue.map (synthTask E.synth v1 v2)) with
            | .error e => (.error (.runtimeError e), tr ++ [.llmCall, .ttsCall])
            | .ok chunks =>
              (.ok ⟨joinBytes chunks, buildTranscript dlg.dialogue, combined⟩,
                tr ++ [.llmCall, .ttsCall])

/-- The `generate_only_dialogue` pipeline: identical front, returns the
dialogue instead of synthesizing audio. -/
def generate_only_dialogue (E : GenEnv) (files : List String)
    (openai_api_key : Option String)
    (edited_transcript user_feedback original_text : Option String) :
    Except PyError Dialogue × List GenEffect :=
  if pyTruthy E.envKey = false ∧ pyTruthy openai_api_key = false then
    (.error (.valueError "OpenAI API key is required"), [])
  else
    match (if (original_text.getD "") = ""
        then extractCombined E.readPdf files ""
        else (.ok (original_text.getD ""), [])) with
    | (.error e, tr) => (.error (.valueError e), tr)
    | (.ok combined, tr) =>
      match processEdited edited_transcript with
      | .error pe => (.error pe, tr)
      | .ok etp =>
        match processFeedback user_feedback with
        | .error pe => (.error pe, tr)
        | .ok ufp =>
          match E.llm combined (requestedImprovements etp ufp).1
              (requestedImprovements etp ufp).2 with
          | .error e => (.error (.runtimeError e), tr ++ [.llmCall])
          | .ok dlg => (.ok dlg, tr ++ [.llmCall])

/-- A concrete environment for evaluating the pipeline: valid key, readable
document, successful collaborators (the LLM returns an empty dialogue). -/
def demoEnvAbsent : GenEnv :=
  ⟨some "sk-demo", fun _ => .ok "PDF TEXT", fun _ _ _ => .ok ⟨"", []⟩,
   fun _ _ => .ok []⟩

/-! ## The tenacity retry wrapper (audio_utils.py lines 82-93)

`@retry(retry=retry_if_exception_type(ValidationError))` with the tenacity
default stop condition: retry forever while the raised exception is a
pydantic ValidationError, re-raise any other exception immediately, return
the first successful value. -/

/-- Outcome of one attempt of the decorated remote call. -/
inductive LlmOutcome where
  | valid (d : Dialogue)
  | schemaError (msg : String)
  | upstreamError (msg : String)
deriving DecidableEq, Repr

/-- The retry loop: attempt `k` invokes the call with the SAME input; `fuel`
bounds how many attempts we unfold (first component `none` = still retrying
after that many attempts).  The second component is the list of inputs
passed to the underlying call, one entry per attempt made. -/
def retryLoop (call : Nat → String → LlmOutcome) (input : String) :
    Nat → Nat → Option (Except String Dialogue) × List String
  | _, 0 => (none, [])
  | k, fuel + 1 =>
    match call k input with
    | .valid d => (some (.ok d), [input])
    | .upstreamError m => (some (.error m), [input])
    | .schemaError _ =>
      let r := retryLoop call input (k + 1) fuel
      (r.1, input :: r.2)

/-- A call that returns malformed output on attempts 0 and 1 and a valid
dialogue on attempt 2. -/
def demoRetryCall : Nat → String → LlmOutcome :=
  fun k _ => if k < 2 then .schemaError "bad json" else .valid ⟨"pad", [⟨"hi", .one⟩]⟩

/-- A call that fails with a transport error on its first attempt. -/
def demoUpstreamCall : Nat → String → LlmOutcome :=
  fun _ _ => .upstreamError "boom"

/-! ## Publisher collaborator wrappers (s3_utils.py, supabase_utils.py) -/

/-- Model of `upload_to_s3`: on client success returns the bucket URL; any client
exception is re-raised with the wrapping message. -/
def upload_to_s3 (clientUpload : Except String Unit) (bucket objectKey : String) :
    Except String String :=
  match clientUpload with
  | .ok _ => .ok ("https://" ++ bucket ++ ".s3.amazonaws.com/" ++ objectKey)
  | .error e => .error ("Failed to upload to S3: " ++ e)

/-- Model of `generate_presigned_url`: returns the presigned URL, or None when the
boto client raises ClientError (caught and logged, not re-raised). -/
def generate_presigned_url (clientSign : Except String String) : Option String :=
  match clientSign with
  | .ok url => some url
  | .error _ => none

/-- The Supabase insert response: returned rows plus an error description. -/
structure SupabaseResponse where
  rows : List String
  errorMsg : String
deriving DecidableEq, Repr

/-- Model of `insert_supabase_record`: wraps any client failure — including a
data-less response, whose inner "Supabase error" raise is caught by the
same function — in the "Failed to insert into Supabase: " message. -/
def insert_supabase_record (clientInsert : Except String SupabaseResponse) :
    Except String (List String) :=
  match clientInsert with
  | .error e => .error ("Failed to insert into Supabase: " ++ e)
  | .ok resp =>
    if resp.rows ≠ [] then .ok resp.rows
    else .error ("Failed to insert into Supabase: "
        ++ ("Supabase error: " ++ resp.errorMsg))

/-! ## The Celery task (generate_tasks.py lines 38-110)

The task body catches every exception of the pipeline/publish stages and
RETURNS a result dict; consequently the broker-level terminal state of a
completed run is SUCCESS with that dict as payload — the FAILURE state would
require an exception to escape the body. -/

/-- The collaborator outcomes one run of the task can observe, plus the
uuid-based object key and the bucket name. -/
structure TaskCollab where
  genAudio : Except String (String × String × String)
  s3Upload : Except String Unit
  s3Sign : Except String String
  dbInsert : Except String SupabaseResponse
  bucket : String
  objectKey : String

/-- External calls the task makes, in order. -/
inductive TaskEffect where
  | genCall
  | uploadCall
  | signCall
  | insertCall
deriving DecidableEq, Repr

/-- The dict a finished task run hands to the result backend: either the
early bare `{"error": ...}` dict (empty submission) or the full four-field
dict; absent keys / None values are `none`. -/
inductive TaskReturn where
  | errorOnly (error : String)
  | result (presigned_url transcript original_text error : Option String)
deriving DecidableEq, Repr

/-- The broker-level terminal outcome of one task execution: SUCCESS with
the returned payload when the task body returns, FAILURE when an exception
escapes it. -/
inductive TaskOutcome where
  | success (r : TaskReturn)
  | failure (msg : String)
deriving DecidableEq, Repr

def TaskOutcome.isSuccessOutcome : TaskOutcome → Bool
  | .success _ => true
  | .failure _ => false

/-- The error field of the returned dict (none when the run raised). -/
def TaskOutcome.errorField : TaskOutcome → Option String
  | .success (.errorOnly m) => some m
  | .success (.result _ _ _ e) => e
  | .failure _ => none

/-- Model of `validate_and_generate_audio_task`, with its effect trace. -/
def validate_and_generate_audio_task (c : TaskCollab) (files : List String) :
    TaskOutcome × List TaskEffect :=
  if files = [] then
    (.success (.errorOnly
        "Please upload at least one PDF file before generating audio."), [])
  else
    match c.genAudio with
    | .error e => (.success (.result none none none (some e)), [.genCall])
    | .ok (_audioFile, transcript, originalText) =>
      match upload_to_s3 c.s3Upload c.bucket c.objectKey with
      | .error e =>
        (.success (.result none none none (some e)), [.genCall, .uploadCall])
      | .ok _s3url =>
        let presigned := generate_presigned_url c.s3Sign
        match insert_supabase_record c.dbInsert with
        | .error e =>
          (.success (.result presigned none none (some e)),
            [.genCall, .uploadCall, .signCall, .insertCall])
        | .ok _rows =>
          (.success (.result presigned (some transcript) (some originalText) none),
            [.genCall, .uploadCall, .signCall, .insertCall])

/-- Some stage of the task run fails. -/
def stageFails (c : TaskCollab) : Prop :=
  (∃ e, c.genAudio = .error e)
    ∨ (∃ e, upload_to_s3 c.s3Upload c.bucket c.objectKey = .error e)
    ∨ (∃ e, insert_supabase_record c.dbInsert = .error e)

/-- A collaborator environment in which every stage succeeds. -/
def demoCollabOk : TaskCollab :=
  ⟨.ok ("f.mp3", "t", "o"), .ok (), .ok "https://signed",
   .ok ⟨["row"], ""⟩, "bucket", "key.mp3"⟩

/-- A collaborator environment in which only the metadata insert fails. -/
def demoCollabInsertFail : TaskCollab :=
  ⟨.ok ("f.mp3", "t", "o"), .ok (), .ok "https://signed",
   .error "db down", "bucket", "key.mp3"⟩

/-- A collaborator environment in which the generation stage fails. -/
def demoCollabGenFail : TaskCollab :=
  ⟨.error "tts line failed", .ok (), .ok "https://signed",
   .ok ⟨["row"], ""⟩, "bucket", "key.mp3"⟩

/-- A synthesis collaborator that fails on the second demo line. -/
def demoFailSynth : String → String → Except String Bytes :=
  fun t _ => if t = "world there" then .error "tts 500" else .ok [1]

/-! ## The status endpoint (app/main.py lines 144-189) -/

/-- A record in the Celery result backend.  `startTime` models the
`start_time` entry of the task metadata when `info` is a dict carrying it
(the source stores an ISO timestamp; we use absolute seconds); `payload`
models `task_result.result` rendered to a string. -/
structure JobRecord where
  state : String
  startTime : Option Int
  payload : Option String
deriving DecidableEq, Repr

/-- The response dict of the endpoint; keys absent from the returned dict are
`none`. -/
structure StatusResponse where
  status : String
  elapsed : Option Int
  result : Option String
  errorMsg : Option String
deriving DecidableEq, Repr

/-- Python `str(..)` of the optional result object (`str(None) = "None"`). -/
def pyStr : Option String → String
  | none => "None"
  | some s => s

/-- Model of `get_task_status`: `AsyncResult(task_id)` against the result backend,
then a branch on the state string.  A task id the backend does not know is
reported by Celery as PENDING with no metadata (documented Celery behavior:
any unknown task id is implied to be in the pending state), so the modelled
backend lookup falls back to that state. -/
def get_task_status (backend : String → Option JobRecord) (now : Int)
    (task_id : String) : StatusResponse :=
  let state := match backend task_id with
    | some r => r.state
    | none => "PENDING"
  let startTime := match backend task_id with
    | some r => r.startTime
    | none => none
  let elapsed := startTime.map (fun t => now - t)
  if state = "PENDING" then ⟨"Pending", elapsed, none, none⟩
  else if state = "SUCCESS" then
    ⟨"Success", elapsed,
      (match backend task_id with | some r => r.payload | none => none), none⟩
  else if state = "FAILURE" then
    ⟨"Failed", elapsed, none,
      some (pyStr (match backend task_id with | some r => r.payload | none => none))⟩
  else ⟨state, elapsed, none, none⟩


/-! ## Theorems -/

/-! ### Fan-out/fan-in lemmas -/

theorem foldl_slots_eq (lines : List DialogueItem)
    (synth : String → String → Except String Bytes) (v1 v2 : String)
    (sched : List Nat) (init : Nat → Option (Except String Bytes)) (j : Nat) :
    (sched.foldl
        (fun slots i => fun j2 =>
          if j2 = i then lines[i]?.map (synthTask synth v1 v2) else slots j2)
        init) j
      = if j ∈ sched then lines[j]?.map (synthTask synth v1 v2) else init j := by
  induction sched generalizing init with
  | nil => simp
  | cons i is ih =>
    simp only [List.foldl_cons]
    rw [ih]
    by_cases hj : j ∈ is
    · simp [hj, List.mem_cons]
    · by_cases hji : j = i
      · subst hji
        simp [hj, List.mem_cons]
      · simp [hj, hji, List.mem_cons]

theorem scheduleSlots_eq (lines : List DialogueItem)
    (synth : String → String → Except String Bytes) (v1 v2 : String)
    (sched : List Nat) (j : Nat) :
    scheduleSlots lines synth v1 v2 sched j =
      if j ∈ sched then lines[j]?.map (synthTask synth v1 v2) else none :=
  foldl_slots_eq lines synth v1 v2 sched (fun _ => none) j

theorem collectSlots_eq_map (L : List Nat)
    (slots : Nat → Option (Except String Bytes))
    (f : Nat → Except String Bytes) (h : ∀ j ∈ L, slots j = some (f j)) :
    collectSlots L slots = some (L.map f) := by
  induction L with
  | nil => rfl
  | cons i is ih =>
    have hi := h i (List.mem_cons_self i is)
    have hrest := ih (fun j hj => h j (List.mem_cons_of_mem i hj))
    simp [collectSlots, hi, hrest]

theorem range_map_getD {α : Type} (lines : List DialogueItem)
    (g : DialogueItem → α) (d : DialogueItem) :
    (List.range lines.length).map (fun j => g (lines.getD j d)) = lines.map g := by
  induction lines with
  | nil => rfl
  | cons l ls ih =>
    have hcomp : ((fun j => g ((l :: ls).getD j d)) ∘ Nat.succ)
        = (fun j => g (ls.getD j d)) := by
      funext j
      simp [List.getD_cons_succ]
    simp only [List.length_cons, List.range_succ_eq_map, List.map_cons,
      List.map_map, hcomp, List.getD_cons_zero]
    exact congrArg (g l :: ·) ih

theorem sequenceExcept_ok (lines : List DialogueItem)
    (synth : String → String → Except String Bytes) (v1 v2 : String)
    (chunk : DialogueItem → Bytes)
    (hok : ∀ l ∈ lines, synth l.text (voiceFor v1 v2 l) = .ok (chunk l)) :
    sequenceExcept (lines.map (synthTask synth v1 v2)) = .ok (lines.map chunk) := by
  induction lines with
  | nil => rfl
  | cons l ls ih =>
    have hl := hok l (List.mem_cons_self l ls)
    have hrest := ih (fun x hx => hok x (List.mem_cons_of_mem l hx))
    simp [sequenceExcept, synthTask, hl, hrest, Except.map]

theorem sequenceExcept_error_of_mem (rs : List (Except String Bytes))
    (e : String) (h : Except.error e ∈ rs) :
    ∃ e2, sequenceExcept rs = .error e2 := by
  induction rs with
  | nil => cases h
  | cons r rest ih =>
    cases r with
    | error e0 => exact ⟨e0, rfl⟩
    | ok b =>
      rcases List.mem_cons.mp h with hr | hr
      · cases hr
      · obtain ⟨e2, he2⟩ := ih hr
        refine ⟨e2, ?_⟩
        simp [sequenceExcept, he2, Except.map]

/-- For any complete schedule (a permutation of the submitted indices), the
fan-in reads back exactly the in-submission-order task outcomes: the stage
result does not depend on the completion order. -/
theorem synthStage_eq_sequence
    (lines : List DialogueItem) (synth : String → String → Except String Bytes)
    (v1 v2 : String) (sched : List Nat)
    (hperm : sched.Perm (List.range lines.length)) :
    synthStageScheduled lines synth v1 v2 sched
      = some (sequenceExcept (lines.map (synthTask synth v1 v2))) := by
  have hmem : ∀ j ∈ List.range lines.length,
      scheduleSlots lines synth v1 v2 sched j
        = some (synthTask synth v1 v2 (lines.getD j dummyLine)) := by
    intro j hj
    have hlt : j < lines.length := List.mem_range.mp hj
    have hin : j ∈ sched := (hperm.mem_iff).mpr hj
    rw [scheduleSlots_eq, if_pos hin, List.getElem?_eq_getElem hlt]
    have hgd : lines.getD j dummyLine = lines[j] := by
      rw [List.getD_eq_getElem?_getD, List.getElem?_eq_getElem hlt]
      rfl
    rw [hgd]
    rfl
  have hcollect := collectSlots_eq_map (List.range lines.length) _ _ hmem
  have hrange := range_map_getD lines (synthTask synth v1 v2) dummyLine
  unfold synthStageScheduled
  rw [hcollect]
  simp only [Option.map_some']
  rw [hrange]

/-- Claim C1: for every dialogue whose per-line synthesis calls all succeed,
the fan-out/fan-in stage yields exactly one audio chunk per dialogue line,
reassembled strictly by submission index: for ANY completion order of the
concurrent calls (any permutation `sched` of the submitted indices) the stage
result equals the in-submission-order chunk list, whose concatenation is the
final audio payload. -/
theorem synth_stage_order_preserved
    (lines : List DialogueItem) (synth : String → String → Except String Bytes)
    (v1 v2 : String) (sched : List Nat) (chunk : DialogueItem → Bytes)
    (hperm : sched.Perm (List.range lines.length))
    (hok : ∀ l ∈ lines, synth l.text (voiceFor v1 v2 l) = .ok (chunk l)) :
    synthStageScheduled lines synth v1 v2 sched
        = some (sequenceExcept (lines.map (synthTask synth v1 v2)))
      ∧ sequenceExcept (lines.map (synthTask synth v1 v2)) = .ok (lines.map chunk)
      ∧ (lines.map chunk).length = lines.length :=
  ⟨synthStage_eq_sequence lines synth v1 v2 sched hperm,
   sequenceExcept_ok lines synth v1 v2 chunk hok, by simp⟩

/-- Witness for C1 at a concrete dialogue with the reversed completion
order `[1, 0]`. -/
theorem synth_stage_order_preserved_witness :
    synthStageScheduled demoLines demoSynth "alloy" "echo" [1, 0]
        = some (sequenceExcept (demoLines.map (synthTask demoSynth "alloy" "echo")))
      ∧ sequenceExcept (demoLines.map (synthTask demoSynth "alloy" "echo"))
          = .ok (demoLines.map demoChunk)
      ∧ (demoLines.map demoChunk).length = demoLines.length :=
  synth_stage_order_preserved demoLines demoSynth "alloy" "echo" [1, 0] demoChunk
    (by decide) (by decide)

theorem buildTranscript_foldl_acc (lines : List DialogueItem) (acc : String) :
    lines.foldl (fun a l => a ++ (transcriptLine l ++ "\n\n")) acc
      = acc ++ joinEntries lines := by
  induction lines generalizing acc with
  | nil => simp [joinEntries, String.append_empty]
  | cons l ls ih => simp [joinEntries, ih, String.append_assoc]

theorem buildTranscript_eq_joinEntries (lines : List DialogueItem) :
    buildTranscript lines = joinEntries lines := by
  unfold buildTranscript
  rw [buildTranscript_foldl_acc, String.empty_append]

/-- Counterexample to claim C7 as stated: already for a one-line dialogue the
source transcript carries a trailing blank-line separator after the final
entry, so it is not the separator-only-between-entries string the claim
describes. -/
theorem transcript_format_counterexample :
    buildTranscript [⟨"hi", .one⟩] = "speaker-1: hi\n\n"
      ∧ specTranscript [⟨"hi", .one⟩] = "speaker-1: hi"
      ∧ buildTranscript [⟨"hi", .one⟩] ≠ specTranscript [⟨"hi", .one⟩] :=
  ⟨rfl, rfl, by decide⟩

/-- Claim C7 (amended): for every nonempty dialogue the transcript consists of
one `"{speaker}: {text}"` entry per line in dialogue order with a blank line
between consecutive entries, plus one trailing blank-line terminator after the
final entry (the empty dialogue gives the empty transcript). -/
theorem transcript_terminator_format (l : DialogueItem) (ls : List DialogueItem) :
    buildTranscript (l :: ls) = specTranscript (l :: ls) ++ "\n\n" := by
  rw [buildTranscript_eq_joinEntries]
  induction ls generalizing l with
  | nil => simp [joinEntries, specTranscript, String.append_empty]
  | cons l2 ls2 ih =>
    have h1 : joinEntries (l :: l2 :: ls2)
        = (transcriptLine l ++ "\n\n") ++ joinEntries (l2 :: ls2) := rfl
    rw [h1, ih l2]
    simp [specTranscript, String.append_assoc]

theorem tagChars_eq (sp : Speaker) : tagChars sp = (sp.str ++ ": ").data := by
  cases sp <;> rfl

theorem buildTranscript_data (lines : List DialogueItem) :
    (buildTranscript lines).data = renderChars lines := by
  rw [buildTranscript_eq_joinEntries]
  induction lines with
  | nil => rfl
  | cons l ls ih =>
    show ((transcriptLine l ++ "\n\n") ++ joinEntries ls).data = _
    rw [String.data_append, String.data_append, ih]
    show ((l.speaker.str ++ ": ") ++ l.text).data ++ _ ++ _ = _
    rw [String.data_append, ← tagChars_eq]
    simp [renderChars, entryChars]

theorem stripPrefixChars_append (p r : List Char) :
    stripPrefixChars p (p ++ r) = some r := by
  induction p with
  | nil => rfl
  | cons c cs ih => simp [stripPrefixChars, ih]

theorem stripPrefixChars_one_two (r : List Char) :
    stripPrefixChars (tagChars .one) (tagChars .two ++ r) = none := by
  simp [tagChars, stripPrefixChars]

theorem parseSpeakerTag_render (sp : Speaker) (r : List Char) :
    parseSpeakerTag (tagChars sp ++ r) = some (sp, r) := by
  cases sp with
  | one => simp [parseSpeakerTag, stripPrefixChars_append]
  | two => simp [parseSpeakerTag, stripPrefixChars_one_two, stripPrefixChars_append]

theorem takeUntilBlank_boundary (t rest : List Char)
    (h : noDoubleNL (t ++ ['\n']) = true) :
    takeUntilBlank (t ++ '\n' :: '\n' :: rest) = some (t, rest) := by
  induction t with
  | nil => simp [takeUntilBlank]
  | cons c t2 ih =>
    cases t2 with
    | nil =>
      have hc : ¬ (c = '\n') := by
        intro hceq
        subst hceq
        simp [noDoubleNL] at h
      simp [takeUntilBlank, hc]
    | cons c2 t3 =>
      have hcond : ¬ (c = '\n' ∧ c2 = '\n') := by
        rintro ⟨h1, h2⟩
        subst h1
        subst h2
        simp [noDoubleNL] at h
      have hrest : noDoubleNL ((c2 :: t3) ++ ['\n']) = true := by
        simp only [List.cons_append, noDoubleNL] at h
        rw [if_neg hcond] at h
        simpa using h
      have ih2 := ih hrest
      simp only [List.cons_append] at ih2 ⊢
      rw [takeUntilBlank, if_neg hcond]
      rw [ih2]

theorem entryChars_ne_nil (l : DialogueItem) : entryChars l ≠ [] := by
  cases hsp : l.speaker <;> simp [entryChars, tagChars, hsp]

theorem renderChars_length_ge (lines : List DialogueItem) :
    lines.length ≤ (renderChars lines).length := by
  induction lines with
  | nil => simp [renderChars]
  | cons l ls ih =>
    have h1 : 1 ≤ (entryChars l).length := by
      cases hsp : l.speaker <;> simp [entryChars, tagChars, hsp]
    simp only [renderChars, List.length_append, List.length_cons]
    omega

theorem parseEntriesFuel_nil (fuel : Nat) : parseEntriesFuel fuel [] = some [] := by
  cases fuel <;> rfl

theorem parse_render (lines : List DialogueItem) (fuel : Nat)
    (h : ∀ l ∈ lines, noDoubleNL (l.text.data ++ ['\n']) = true) :
    parseEntriesFuel (lines.length + fuel) (renderChars lines)
      = some (lines.map (fun l => (l.speaker, l.text.data))) := by
  induction lines generalizing fuel with
  | nil => simp [parseEntriesFuel_nil, renderChars]
  | cons l ls ih =>
    have hne : entryChars l ++ renderChars ls ≠ [] := by
      intro hcon
      exact entryChars_ne_nil l (List.append_eq_nil.mp hcon).1
    have harith : (l :: ls).length + fuel = (ls.length + fuel) + 1 := by
      simp only [List.length_cons]
      omega
    have hshape : entryChars l ++ renderChars ls
        = tagChars l.speaker ++ (l.text.data ++ '\n' :: '\n' :: renderChars ls) := by
      simp [entryChars, List.append_assoc]
    rw [renderChars, harith, parseEntriesFuel, if_neg hne, hshape,
      parseSpeakerTag_render]
    simp only [takeUntilBlank_boundary l.text.data (renderChars ls)
        (h l (List.mem_cons_self l ls)),
      ih fuel (fun x hx => h x (List.mem_cons_of_mem l hx)),
      Option.map_some', List.map_cons]

theorem string_mk_data (s : String) : String.mk s.data = s := by
  cases s
  rfl

/-- Counterexample to claim C8 as stated: a valid dialogue (speaker tag one
of the two values, text non-empty) whose line text itself contains a
blank-line separator followed by speaker-tag-shaped characters; the transcript
it renders to is indistinguishable from that of a two-line dialogue, so the
fixed-format parse does not return the original sequence. -/
theorem transcript_round_trip_counterexample :
    ([(⟨"hi\n\nspeaker-2: yo", .one⟩ : DialogueItem)].map
          (fun l => (l.speaker, l.text))
        = [(Speaker.one, "hi\n\nspeaker-2: yo")])
      ∧ parseTranscript (buildTranscript [⟨"hi\n\nspeaker-2: yo", .one⟩])
          = some [(Speaker.one, "hi"), (Speaker.two, "yo")]
      ∧ parseTranscript (buildTranscript [⟨"hi\n\nspeaker-2: yo", .one⟩])
          ≠ some ([(⟨"hi\n\nspeaker-2: yo", .one⟩ : DialogueItem)].map
              (fun l => (l.speaker, l.text))) :=
  ⟨rfl, by decide, by decide⟩

/-- Claim C8 (amended): for every valid dialogue (lines with one of the two
speaker tags and non-empty text) whose line texts additionally contain no
blank-line separator and do not end in a newline, parsing the transcript
built from it under the fixed join format yields back exactly the original
ordered sequence of (speaker, text) pairs. -/
theorem transcript_round_trip (lines : List DialogueItem)
    (h : ∀ l ∈ lines, l.text ≠ ""
        ∧ noDoubleNL (l.text.data ++ ['\n']) = true) :
    parseTranscript (buildTranscript lines)
      = some (lines.map (fun l => (l.speaker, l.text))) := by
  unfold parseTranscript
  rw [buildTranscript_data]
  obtain ⟨k, hk⟩ := Nat.exists_eq_add_of_le (renderChars_length_ge lines)
  rw [hk, parse_render lines k (fun l hl => (h l hl).2)]
  simp only [Option.map_some', List.map_map]
  have hfun : ((fun p : Speaker × List Char => (p.1, String.mk p.2))
        ∘ fun l : DialogueItem => (l.speaker, l.text.data))
      = fun l : DialogueItem => (l.speaker, l.text) := by
    funext x
    simp [Function.comp, string_mk_data]
  rw [hfun]

/-- Witness for C8 at a concrete two-line dialogue. -/
theorem transcript_round_trip_witness :
    parseTranscript (buildTranscript demoLines)
      = some (demoLines.map (fun l => (l.speaker, l.text))) :=
  transcript_round_trip demoLines (by decide)

theorem extractCombined_error_trace (readPdf : String → Except String String)
    (files : List String) (acc : String) (e : String)
    (h : (extractCombined readPdf files acc).1 = .error e) :
    (extractCombined readPdf files acc).2 ≠ [] := by
  cases files with
  | nil => simp [extractCombined] at h
  | cons f fs =>
    unfold extractCombined
    cases hr : readPdf f <;> simp

theorem processEdited_error (et : Option String) (pe : PyError)
    (h : processEdited et = .error pe) :
    pe = .typeError "can only concatenate str (not NoneType) to str" := by
  unfold processEdited at h
  split at h
  · cases h
  · cases et with
    | none => exact (Except.error.inj h).symm
    | some s => simp at h

theorem processFeedback_error (uf : Option String) (pe : PyError)
    (h : processFeedback uf = .error pe) :
    pe = .typeError "can only concatenate str (not NoneType) to str" := by
  unfold processFeedback at h
  split at h
  · cases h
  · cases uf with
    | none => exact (Except.error.inj h).symm
    | some s => simp at h

theorem generate_audio_key_iff (E : GenEnv) (files : List String)
    (key : Option String) (v1 v2 : String) (et uf ot : Option String) :
    generate_audio E files key v1 v2 et uf ot
        = (.error (.valueError "OpenAI API key is required"), [])
      ↔ (pyTruthy E.envKey = false ∧ pyTruthy key = false) := by
  by_cases hg : pyTruthy E.envKey = false ∧ pyTruthy key = false
  · constructor
    · intro _
      exact hg
    · intro _
      unfold generate_audio
      rw [if_pos hg]
  · constructor
    · intro heq
      exfalso
      unfold generate_audio at heq
      rw [if_neg hg] at heq
      split at heq
      next e tr hext =>
        simp only [Prod.mk.injEq, Except.error.injEq, PyError.valueError.injEq]
          at heq
        obtain ⟨he, htr⟩ := heq
        split at hext
        · have h1 : (extractCombined E.readPdf files "").1 = .error e := by
            rw [hext]
          have h2 : (extractCombined E.readPdf files "").2 = tr := by
            rw [hext]
          exact extractCombined_error_trace E.readPdf files "" e h1
            (by rw [h2, htr])
        · simp at hext
      next combined tr hext =>
        split at heq
        next pe hpe =>
          have hte := processEdited_error et pe hpe
          subst hte
          simp at heq
        next etp hetp =>
          split at heq
          next pe hpe =>
            have hte := processFeedback_error uf pe hpe
            subst hte
            simp at heq
          next ufp hufp =>
            split at heq
            next e hllm => simp at heq
            next dlg hllm =>
              split at heq
              next e hseq => simp at heq
              next chunks hseq => simp at heq
    · intro hcon
      exact absurd hcon hg

theorem generate_only_dialogue_key_iff (E : GenEnv) (files : List String)
    (key : Option String) (et uf ot : Option String) :
    generate_only_dialogue E files key et uf ot
        = (.error (.valueError "OpenAI API key is required"), [])
      ↔ (pyTruthy E.envKey = false ∧ pyTruthy key = false) := by
  by_cases hg : pyTruthy E.envKey = false ∧ pyTruthy key = false
  · constructor
    · intro _
      exact hg
    · intro _
      unfold generate_only_dialogue
      rw [if_pos hg]
  · constructor
    · intro heq
      exfalso
      unfold generate_only_dialogue at heq
      rw [if_neg hg] at heq
      split at heq
      next e tr hext =>
        simp only [Prod.mk.injEq, Except.error.injEq, PyError.valueError.injEq]
          at heq
        obtain ⟨he, htr⟩ := heq
        split at hext
        · have h1 : (extractCombined E.readPdf files "").1 = .error e := by
            rw [hext]
          have h2 : (extractCombined E.readPdf files "").2 = tr := by
            rw [hext]
          exact extractCombined_error_trace E.readPdf files "" e h1
            (by rw [h2, htr])
        · simp at hext
      next combined tr hext =>
        split at heq
        next pe hpe =>
          have hte := processEdited_error et pe hpe
          subst hte
          simp at heq
        next etp hetp =>
          split at heq
          next pe hpe =>
            have hte := processFeedback_error uf pe hpe
            subst hte
            simp at heq
          next ufp hufp =>
            split at heq
            next e hllm => simp at heq
            next dlg hllm => simp at heq
    · intro hcon
      exact absurd hcon hg

/-- Claim C10: a call to audio or dialogue-only generation yields the
`ValueError "OpenAI API key is required"` with an EMPTY collaborator trace
(no document read, no LLM or TTS contact) exactly when neither the
OPENAI_API_KEY environment value nor the openai_api_key argument is a
non-empty string; when either credential source is present the guard passes
and the call never produces that outcome. -/
theorem api_key_guard (E : GenEnv) (files : List String) (key : Option String)
    (v1 v2 : String) (et uf ot : Option String) :
    (generate_audio E files key v1 v2 et uf ot
        = (.error (.valueError "OpenAI API key is required"), [])
      ↔ (pyTruthy E.envKey = false ∧ pyTruthy key = false))
    ∧ (generate_only_dialogue E files key et uf ot
        = (.error (.valueError "OpenAI API key is required"), [])
      ↔ (pyTruthy E.envKey = false ∧ pyTruthy key = false)) :=
  ⟨generate_audio_key_iff E files key v1 v2 et uf ot,
   generate_only_dialogue_key_iff E files key et uf ot⟩

/-- Claim C9, evaluated at the failing input (code bug): with BOTH
edited_transcript and user_feedback absent (None — the parameter default,
and what validate_and_generate_audio_task passes), the call raises TypeError
while assembling the edited-transcript fragment (because the Python test
`edited_transcript != ""` is true for None), instead of proceeding with the
improvements section omitted; with both EMPTY strings the call does proceed
normally past the fragment assembly. -/
theorem absent_improvement_inputs_raise :
    generate_audio demoEnvAbsent ["doc.pdf"] none "alloy" "echo" none none none
      = (.error (.typeError "can only concatenate str (not NoneType) to str"),
        [GenEffect.docRead "doc.pdf"])
    ∧ generate_audio demoEnvAbsent ["doc.pdf"] none "alloy" "echo"
        (some "") (some "") none
      = (.ok ⟨[], "", "PDF TEXT\n\n"⟩,
        [GenEffect.docRead "doc.pdf", GenEffect.llmCall, GenEffect.ttsCall]) :=
  ⟨rfl, rfl⟩

theorem retryLoop_valid_after (call : Nat → String → LlmOutcome)
    (input : String) (d : Dialogue) (k0 k : Nat)
    (hbad : ∀ j, j < k → ∃ msg, call (k0 + j) input = .schemaError msg)
    (hgood : call (k0 + k) input = .valid d) :
    retryLoop call input k0 (k + 1)
      = (some (.ok d), List.replicate (k + 1) input) := by
  induction k generalizing k0 with
  | zero =>
    have hg : call k0 input = .valid d := by simpa using hgood
    simp [retryLoop, hg, List.replicate]
  | succ k ih =>
    obtain ⟨msg, hmsg⟩ := hbad 0 (Nat.succ_pos k)
    have h0 : call k0 input = .schemaError msg := by simpa using hmsg
    have hbad2 : ∀ j, j < k → ∃ m2, call ((k0 + 1) + j) input = .schemaError m2 := by
      intro j hj
      obtain ⟨m2, hm2⟩ := hbad (j + 1) (Nat.succ_lt_succ hj)
      refine ⟨m2, ?_⟩
      have harith : k0 + 1 + j = k0 + (j + 1) := by omega
      rw [harith]
      exact hm2
    have hgood2 : call ((k0 + 1) + k) input = .valid d := by
      have harith : k0 + 1 + k = k0 + (k + 1) := by omega
      rw [harith]
      exact hgood
    have ihr := ih (k0 + 1) hbad2 hgood2
    conv_lhs => rw [retryLoop, h0]
    simp [ihr, List.replicate]

/-- Claim C3: the dialogue-generation call is retried, with the identical
input, exactly when an attempt fails schema validation (and without bound:
for any number `k` of leading malformed attempts the dialogue of the first valid attempt
is returned, the earlier validation errors never surfacing, after
exactly `k + 1` identical-input calls); an upstream/transport error is
surfaced immediately after a single call, never retried, whatever retry
budget remains. -/
theorem dialogue_retry_policy
    (call call2 : Nat → String → LlmOutcome) (input input2 : String)
    (k : Nat) (d : Dialogue) (m : String) (extra : Nat)
    (hbad : ∀ j, j < k → ∃ msg, call j input = .schemaError msg)
    (hgood : call k input = .valid d)
    (hup : call2 0 input2 = .upstreamError m) :
    retryLoop call input 0 (k + 1)
        = (some (.ok d), List.replicate (k + 1) input)
      ∧ retryLoop call2 input2 0 (extra + 1)
        = (some (.error m), [input2]) := by
  constructor
  · exact retryLoop_valid_after call input d 0 k
      (by simpa using hbad) (by simpa using hgood)
  · simp [retryLoop, hup]

/-- Witness for C3: malformed output exactly twice then valid output on the
third attempt returns the valid dialogue after three identical-input calls;
a first-attempt transport error surfaces after one call even with fuel for
six. -/
theorem dialogue_retry_policy_witness :
    retryLoop demoRetryCall "prompt" 0 3
        = (some (.ok ⟨"pad", [⟨"hi", Speaker.one⟩]⟩), List.replicate 3 "prompt")
      ∧ retryLoop demoUpstreamCall "prompt" 0 6
        = (some (.error "boom"), ["prompt"]) :=
  dialogue_retry_policy demoRetryCall demoUpstreamCall "prompt" "prompt" 2
    ⟨"pad", [⟨"hi", .one⟩]⟩ "boom" 5
    (fun j hj => ⟨"bad json", by simp [demoRetryCall, hj]⟩)
    (by decide) (by decide)

/-- Counterexample to claim C2 as stated: submission of the empty document
list does NOT put the job in the broker-level FAILURE terminal state — the
task body returns normally, so the terminal outcome is SUCCESS, carrying the
message in the error field of the returned dict (with no external call made). -/
theorem failure_state_counterexample :
    validate_and_generate_audio_task demoCollabOk []
        = (.success (.errorOnly
            "Please upload at least one PDF file before generating audio."), [])
      ∧ (validate_and_generate_audio_task demoCollabOk []).1.isSuccessOutcome
          = true :=
  ⟨rfl, rfl⟩

/-- Claim C2 (amended): on any stage failure the task completes normally —
the broker-level terminal outcome is SUCCESS, never FAILURE — with the
string-rendered cause in the error field of the returned dict; the empty document
list in particular returns (for every collaborator environment) the
"Please upload at least one PDF file before generating audio." message with
NO external calls made. -/
theorem stage_failure_handling (c : TaskCollab) (files : List String)
    (h : stageFails c) :
    (validate_and_generate_audio_task c files).1.isSuccessOutcome = true
      ∧ ((validate_and_generate_audio_task c files).1.errorField).isSome = true
      ∧ validate_and_generate_audio_task c []
        = (.success (.errorOnly
            "Please upload at least one PDF file before generating audio."), []) := by
  have hempty : validate_and_generate_audio_task c []
      = (.success (.errorOnly
          "Please upload at least one PDF file before generating audio."), []) := rfl
  have hmain : (validate_and_generate_audio_task c files).1.isSuccessOutcome = true
      ∧ ((validate_and_generate_audio_task c files).1.errorField).isSome = true := by
    unfold validate_and_generate_audio_task
    by_cases hf : files = []
    · subst hf
      simp [TaskOutcome.isSuccessOutcome, TaskOutcome.errorField]
    · rw [if_neg hf]
      cases hga : c.genAudio with
      | error e => simp [TaskOutcome.isSuccessOutcome, TaskOutcome.errorField]
      | ok v =>
        obtain ⟨af, tr2, ot2⟩ := v
        cases hup : upload_to_s3 c.s3Upload c.bucket c.objectKey with
        | error e => simp [TaskOutcome.isSuccessOutcome, TaskOutcome.errorField]
        | ok u =>
          cases hins : insert_supabase_record c.dbInsert with
          | error e => simp [TaskOutcome.isSuccessOutcome, TaskOutcome.errorField]
          | ok rows =>
            exfalso
            rcases h with ⟨e, he⟩ | ⟨e, he⟩ | ⟨e, he⟩
            · rw [hga] at he
              simp at he
            · rw [hup] at he
              simp at he
            · rw [hins] at he
              simp at he
  exact ⟨hmain.1, hmain.2, hempty⟩

/-- Witness for C2: a run whose metadata insert fails returns normally with
a populated error field; the empty list returns the canonical message. -/
theorem stage_failure_handling_witness :
    (validate_and_generate_audio_task demoCollabInsertFail ["doc.pdf"]).1.isSuccessOutcome
        = true
      ∧ ((validate_and_generate_audio_task demoCollabInsertFail
            ["doc.pdf"]).1.errorField).isSome = true
      ∧ validate_and_generate_audio_task demoCollabInsertFail []
        = (.success (.errorOnly
            "Please upload at least one PDF file before generating audio."), []) :=
  stage_failure_handling demoCollabInsertFail ["doc.pdf"]
    (Or.inr (Or.inr ⟨"Failed to insert into Supabase: db down", rfl⟩))

/-- Claim C4: if the synthesis of any single line fails, the whole fan-in
stage yields an error (for any completion order) — no chunk list and hence
no partial audio artifact is produced — and a task run whose generation
stage fails returns the error result with no presigned URL and with a trace
containing no upload, sign or insert call: nothing is uploaded or
published. -/
theorem single_line_failure_fails_stage
    (lines : List DialogueItem) (synth : String → String → Except String Bytes)
    (v1 v2 : String) (sched : List Nat) (j : Nat) (e : String)
    (c : TaskCollab) (files : List String) (gm : String)
    (hperm : sched.Perm (List.range lines.length))
    (hj : j < lines.length)
    (hfail : synth lines[j].text (voiceFor v1 v2 lines[j]) = .error e)
    (hf : files ≠ [])
    (hga : c.genAudio = .error gm) :
    (∃ e2, synthStageScheduled lines synth v1 v2 sched = some (.error e2))
      ∧ validate_and_generate_audio_task c files
        = (.success (.result none none none (some gm)), [.genCall]) := by
  constructor
  · have hmem : Except.error e ∈ lines.map (synthTask synth v1 v2) := by
      refine List.mem_map.mpr ⟨lines[j], List.getElem_mem hj, ?_⟩
      rw [synthTask, hfail]
    obtain ⟨e2, he2⟩ := sequenceExcept_error_of_mem _ e hmem
    refine ⟨e2, ?_⟩
    rw [synthStage_eq_sequence lines synth v1 v2 sched hperm, he2]
  · unfold validate_and_generate_audio_task
    rw [if_neg hf, hga]

/-- Witness for C4: one failing synthesis call among the demo lines fails
the stage under the reversed completion order, and a failing generation
stage leaves the task with an error result and no publish calls. -/
theorem single_line_failure_fails_stage_witness :
    (∃ e2, synthStageScheduled demoLines demoFailSynth "alloy" "echo" [1, 0]
        = some (.error e2))
      ∧ validate_and_generate_audio_task demoCollabGenFail ["doc.pdf"]
        = (.success (.result none none none (some "tts line failed")),
          [.genCall]) :=
  single_line_failure_fails_stage demoLines demoFailSynth "alloy" "echo" [1, 0]
    1 "tts 500" demoCollabGenFail ["doc.pdf"] "tts line failed"
    (by decide) (by decide) (by decide) (by decide) rfl

/-- Claim C5: when generation, the S3 upload and the presigned-URL minting
succeed but the metadata insert fails, the returned (normally completed)
result carries BOTH the non-null presigned URL obtained before the failing
sub-step AND the error message. -/
theorem publish_insert_fail_keeps_url (c : TaskCollab) (files : List String)
    (af tr2 ot2 url m : String)
    (hf : files ≠ [])
    (hga : c.genAudio = .ok (af, tr2, ot2))
    (hup : c.s3Upload = .ok ())
    (hsign : c.s3Sign = .ok url)
    (hins : insert_supabase_record c.dbInsert = .error m) :
    validate_and_generate_audio_task c files
      = (.success (.result (some url) none none (some m)),
        [.genCall, .uploadCall, .signCall, .insertCall]) := by
  unfold validate_and_generate_audio_task
  rw [if_neg hf, hga]
  simp [upload_to_s3, hup, hins, generate_presigned_url, hsign]

/-- Witness for C5: with the insert failing after a successful upload and
minting, the error result still carries the presigned URL. -/
theorem publish_insert_fail_keeps_url_witness :
    validate_and_generate_audio_task demoCollabInsertFail ["doc.pdf"]
      = (.success (.result (some "https://signed") none none
          (some "Failed to insert into Supabase: db down")),
        [.genCall, .uploadCall, .signCall, .insertCall]) :=
  publish_insert_fail_keeps_url demoCollabInsertFail ["doc.pdf"] "f.mp3" "t" "o"
    "https://signed" "Failed to insert into Supabase: db down"
    (by decide) rfl rfl rfl rfl

/-- Counterexample to claim C6 as stated: for an identifier the backing
store does not recognize, the endpoint reports the NORMAL lifecycle state
"Pending" (the implied-pending of Celery for unknown ids), not a distinct
"Unknown" state. -/
theorem unknown_job_counterexample :
    get_task_status (fun _ => none) 100 "reaped-id"
        = ⟨"Pending", none, none, none⟩
      ∧ (get_task_status (fun _ => none) 100 "reaped-id").status ≠ "Unknown" :=
  ⟨rfl, by decide⟩

/-- Claim C6 (amended): for every job identifier the backing result store no
longer recognizes, the status query succeeds with a well-formed snapshot —
it does not crash — but it reports the normal Pending lifecycle state with
no elapsed time, result or error, rather than any distinct unknown-job
state (no such state exists in the endpoint). -/
theorem unknown_job_reports_pending (backend : String → Option JobRecord)
    (now : Int) (task_id : String) (h : backend task_id = none) :
    get_task_status backend now task_id = ⟨"Pending", none, none, none⟩ := by
  unfold get_task_status
  rw [h]
  rfl

/-- Witness for C6 on the empty backend. -/
theorem unknown_job_reports_pending_witness :
    get_task_status (fun _ => none) 42 "gone"
      = ⟨"Pending", none, none, none⟩ :=
  unknown_job_reports_pending (fun _ => none) 42 "gone" rfl

end PdfToAudio
